import Mathlib

/-!
Verification of the semantic-context construction and retrieval-augmented
query pipeline of a financial-document management application.

The Python sources are shallowly embedded: pure functions become Lean
functions on `List Char` / `String` / `ℤ` / `ℚ`; the Django ORM store is an
explicit record of row lists threaded through the service functions; the
database connection, the embedding backend and the clock are passed as
explicit arguments.  Money amounts persisted in `numeric(10,2)` columns are
modelled in integer cents.
-/

namespace Pratica

/-! ### Python-style string primitives -/

/-- Whitespace characters recognised by Python `str.strip`. -/
def isPyWs (c : Char) : Bool :=
  c = ' ' || c = '\t' || c = '\n' || c = '\r' || c = '\x0b' || c = '\x0c'

/-- Python `str.lstrip` on a character list. -/
def stripLeftL (l : List Char) : List Char := l.dropWhile isPyWs

/-- Python `str.rstrip` on a character list. -/
def stripRightL (l : List Char) : List Char := (l.reverse.dropWhile isPyWs).reverse

/-- Python `str.strip` on a character list. -/
def pyStripL (l : List Char) : List Char := stripLeftL (stripRightL l)

/-- Python `str.strip` on strings. -/
def pyStrip (s : String) : String := ⟨pyStripL s.data⟩

/-- Uppercasing of one character: ASCII plus the accented letters that occur
in the repository's string literals. -/
def pyUpperChar (c : Char) : Char :=
  if c = 'ç' then 'Ç'
  else if c = 'ã' then 'Ã'
  else if c = 'á' then 'Á'
  else if c = 'à' then 'À'
  else if c = 'â' then 'Â'
  else if c = 'é' then 'É'
  else if c = 'ê' then 'Ê'
  else if c = 'í' then 'Í'
  else if c = 'ó' then 'Ó'
  else if c = 'ô' then 'Ô'
  else if c = 'õ' then 'Õ'
  else if c = 'ú' then 'Ú'
  else c.toUpper

/-- Lowercasing of one character: ASCII plus the accented letters that occur
in the repository's string literals. -/
def pyLowerChar (c : Char) : Char :=
  if c = 'Ç' then 'ç'
  else if c = 'Ã' then 'ã'
  else if c = 'Á' then 'á'
  else if c = 'À' then 'à'
  else if c = 'Â' then 'â'
  else if c = 'É' then 'é'
  else if c = 'Ê' then 'ê'
  else if c = 'Í' then 'í'
  else if c = 'Ó' then 'ó'
  else if c = 'Ô' then 'ô'
  else if c = 'Õ' then 'õ'
  else if c = 'Ú' then 'ú'
  else c.toLower

/-- Python substring containment (`needle in haystack`). -/
def containsSubL (needle : List Char) : List Char → Bool
  | [] => needle.isPrefixOf []
  | c :: r => needle.isPrefixOf (c :: r) || containsSubL needle r

/-- Python substring containment on strings. -/
def containsSub (needle haystack : String) : Bool :=
  containsSubL needle.data haystack.data

/-- Python `str.join` with a separator. -/
def joinSep (sep : String) : List String → String
  | [] => ""
  | [x] => x
  | x :: y :: r => x ++ sep ++ joinSep sep (y :: r)

/-! ### SQL Tool Guard (`myproject/agents/simple_rag/db_tools.py`)

The regular-expression operations of `_validate_sql_query` are embedded as
character scanners with the same observable behaviour:
line comments `--.*$` are removed up to (excluding) the newline, block
comments `/\*.*?\*/` are removed non-greedily, and forbidden commands are
searched as whole words (word characters being alphanumerics and the
underscore). -/

/-- Removal of SQL line comments, mirroring `re.sub` with the pattern
dash-dash-dot-star-dollar in MULTILINE mode.  The boolean state records
whether the scanner currently stands inside a line comment. -/
def stripLineCommentsAux : Bool → List Char → List Char
  | _, [] => []
  | true, '\n' :: r => '\n' :: stripLineCommentsAux false r
  | true, _ :: r => stripLineCommentsAux true r
  | false, '-' :: '-' :: r => stripLineCommentsAux true r
  | false, c :: r => c :: stripLineCommentsAux false r

/-- Removal of SQL line comments. -/
def stripLineComments (l : List Char) : List Char := stripLineCommentsAux false l

/-- Removal of SQL block comments, mirroring `re.sub` with the non-greedy
slash-star .. star-slash pattern in DOTALL mode: each opening slash-star is
deleted together with everything up to the first closing star-slash; an
unclosed opener is kept verbatim.  The first argument buffers, in reverse,
the characters consumed since the pending opener (restored at end of input
when the opener is never closed). -/
def stripBlockCommentsAux : Option (List Char) → List Char → List Char
  | none, [] => []
  | some pend, [] => pend.reverse
  | none, '/' :: '*' :: r => stripBlockCommentsAux (some ['*', '/']) r
  | none, c :: r => c :: stripBlockCommentsAux none r
  | some _, '*' :: '/' :: r => stripBlockCommentsAux none r
  | some pend, c :: r => stripBlockCommentsAux (some (c :: pend)) r

/-- Removal of SQL block comments. -/
def stripBlockComments (l : List Char) : List Char := stripBlockCommentsAux none l

/-- Word characters for the word-boundary search. -/
def isWordChar (c : Char) : Bool := c.isAlphanum || c = '_'

/-- Does the word match at the head of the list, with a word boundary on
each side (the preceding character, if any, is given separately)? -/
def matchesWordAt (w l : List Char) (prev : Option Char) : Bool :=
  w.isPrefixOf l
    && (match prev with | none => true | some p => !isWordChar p)
    && (match (l.drop w.length).head? with | none => true | some n => !isWordChar n)

/-- Scan for a whole-word occurrence, carrying the previous character. -/
def containsWordAux (w : List Char) : Option Char → List Char → Bool
  | _, [] => false
  | prev, c :: r => matchesWordAt w (c :: r) prev || containsWordAux w (some c) r

/-- Whole-word containment, mirroring `re.search` of a word wrapped in
word-boundary anchors. -/
def containsWord (w : String) (l : List Char) : Bool :=
  containsWordAux w.data none l

/-- The denylist of `_validate_sql_query`. -/
def forbidden_commands : List String :=
  ["INSERT", "UPDATE", "DELETE", "DROP", "CREATE", "ALTER",
   "TRUNCATE", "GRANT", "REVOKE", "EXEC", "EXECUTE",
   "CALL", "MERGE", "REPLACE", "RENAME"]

/-- Embedding of `_validate_sql_query`: returns the validity flag and the
error message. -/
def validate_sql_query (query : String) : Bool × String :=
  if pyStripL query.data = [] then (false, "Query vazia")
  else
    let qc : List Char :=
      (pyStripL (stripBlockComments (stripLineComments query.data))).map pyUpperChar
    if !("SELECT".data.isPrefixOf qc) then
      (false, "Apenas consultas SELECT são permitidas")
    else
      match forbidden_commands.find? (fun cmd => containsWord cmd qc) with
      | some cmd => (false, "Comando " ++ cmd ++ " não é permitido")
      | none =>
        if qc.contains ';' && !(qc.getLast? = some ';') then
          (false, "Múltiplos comandos SQL não são permitidos")
        else (true, "")

/-- Cell values returned by the database cursor. -/
inductive SqlValue where
  | vNull : SqlValue
  | vInt : ℤ → SqlValue
  | vStr : String → SqlValue
  | vRat : ℚ → SqlValue
deriving DecidableEq

/-- The JSON result envelope of `executar_consulta_sql`. -/
inductive SqlEnvelope where
  | success (count : ℕ) (columns : List String) (data : List (List (String × SqlValue)))
  | failure (error : String)
deriving DecidableEq

/-- Embedding of `executar_consulta_sql`.  The database connection is an
explicit argument mapping the query text to either an error message (an
exception caught by the outer handler) or the cursor description and rows.
Every control path yields an envelope; the Python function never lets an
exception escape because its entire body sits inside a catch-all handler.
The row-to-dictionary conversion `dict(zip(columns, row))` is the `zip`
below; the recursive conversion of date values to ISO strings and decimal
values to floats inside `_serialize_result` is value-preserving
re-encoding and is not modelled (no claim depends on it). -/
def executar_consulta_sql (query : String)
    (db : String → Except String (List String × List (List SqlValue))) :
    SqlEnvelope :=
  match validate_sql_query query with
  | (false, msg) => .failure ("Query inválida: " ++ msg)
  | (true, _) =>
    match db query with
    | .error e => .failure e
    | .ok (cols, rows) =>
      let results := rows.map (fun r => cols.zip r)
      .success results.length cols results

/-! ### Session Store (`myproject/agents/chat_manager.py`) -/

/-- One chat session record.  The opaque Gemini chat object is modelled as a
string payload; timestamps are integers on an abstract clock. -/
structure ChatSession where
  chat : String
  agent_type : String
  created_at : ℤ
  last_accessed : ℤ
  message_count : ℕ
deriving DecidableEq

/-- The in-memory session dictionary: an insertion-ordered association list
with unique keys (Python dict). -/
abbrev SessionStore := List (String × ChatSession)

/-- Embedding of `ChatSessionManager._is_session_valid` at clock reading
`now`, with time-to-live `ttl`. -/
def is_session_valid (ttl now : ℤ) (s : ChatSession) : Bool :=
  now - s.last_accessed < ttl

/-- Embedding of `ChatSessionManager._cleanup_expired_sessions`. -/
def cleanup_expired_sessions (ttl now : ℤ) (store : SessionStore) : SessionStore :=
  store.filter (fun p => is_session_valid ttl now p.2)

/-- Embedding of `ChatSessionManager.get_session`.  The wall clock is the
explicit argument `now` (the Python code reads `datetime.now()` afresh a few
lines apart; the microseconds elapsing between those reads are not
modelled).  Returns the session handed to the caller, refreshed, together
with the store as left after the call. -/
def get_session (ttl now : ℤ) (session_id : String) (store : SessionStore) :
    Option ChatSession × SessionStore :=
  let store1 := cleanup_expired_sessions ttl now store
  match store1.find? (fun p => p.1 == session_id) with
  | none => (none, store1)
  | some (_, s) =>
    if is_session_valid ttl now s then
      let s2 := { s with last_accessed := now }
      (some s2, store1.map (fun p => if p.1 == session_id then (p.1, s2) else p))
    else
      (none, store1.filter (fun p => !(p.1 == session_id)))

/-- Embedding of `ChatSessionManager.get_session_count`: sweep, then count
the surviving sessions. -/
def get_session_count (ttl now : ℤ) (store : SessionStore) : ℕ × SessionStore :=
  let store1 := cleanup_expired_sessions ttl now store
  (store1.length, store1)

/-! ### Retry/backoff wrapper (`myproject/agents/agent.py`) -/

/-- The exception classes distinguished by `BaseAgent._retry_with_backoff`:
`json.JSONDecodeError`, `ValueError`, and every other exception. -/
inductive PyExc where
  | jsonDecodeError (msg : String)
  | valueError (msg : String)
  | otherError (msg : String)
deriving DecidableEq

/-- Error text of the structured envelope returned once the retry budget is
exhausted, per exception class. -/
def retryFinalError : PyExc → String
  | .jsonDecodeError m => "Falha ao decodificar JSON após todas as tentativas: " ++ m
  | .valueError m => "Erro de validação após todas as tentativas: " ++ m
  | .otherError m => "Erro inesperado após todas as tentativas: " ++ m

/-- Outcome of the retry wrapper: the operation result, or the structured
error envelope.  The envelope carries the error text and the attempt count;
its `response` field is always null in the Python code and therefore not
represented. -/
inductive RetryResult (α : Type) where
  | ok (value : α)
  | failed (error : String) (attempts : ℕ)
deriving DecidableEq

/-- One execution of the retry loop of `BaseAgent._retry_with_backoff`:
returns the outcome, the back-off sleeps performed (seconds, in order), and
the number of times the operation was invoked.  `op n` is the outcome of
the n-th invocation (1-based).  `rem` counts loop iterations still
available; the entry point uses `rem = max_retries`, `attempt = 1`. -/
def retryGo {α : Type} (op : ℕ → Except PyExc α) (max_retries retry_delay : ℕ) :
    ℕ → ℕ → RetryResult α × List ℕ × ℕ
  | 0, _ => (.failed "Todas as tentativas de operação falharam" max_retries, [], 0)
  | rem + 1, attempt =>
    match op attempt with
    | .ok a => (.ok a, [], 1)
    | .error e =>
      if attempt < max_retries then
        let rest := retryGo op max_retries retry_delay rem (attempt + 1)
        (rest.1, retry_delay * attempt :: rest.2.1, rest.2.2 + 1)
      else
        (.failed (retryFinalError e) max_retries, [], 1)

/-- Embedding of `BaseAgent._retry_with_backoff` (with the default
`operation_name`, which only affects log lines and the unreachable
fall-through message). -/
def retry_with_backoff {α : Type} (op : ℕ → Except PyExc α)
    (max_retries retry_delay : ℕ) : RetryResult α × List ℕ × ℕ :=
  retryGo op max_retries retry_delay max_retries 1

/-! ### Relational rows (`myproject/apps/core/models/`)

Persisted money columns are `numeric(10,2)`; they are modelled in integer
cents.  Dates are day numbers on the proleptic Gregorian calendar. -/

/-- A `Person` row (provider or invoiced party). -/
structure Person where
  id : ℕ
  tipo : String
  documento : String
  razao_social : String
  fantasia : Option String
  status : String
deriving DecidableEq

/-- A `Classification` row. -/
structure Classification where
  id : ℕ
  tipo : String
  descricao : String
  status : String
deriving DecidableEq

/-- An `AccountTransaction` row. -/
structure AccountTransaction where
  id : ℕ
  tipo : String
  numero_nota_fiscal : String
  data_emissao : ℤ
  descricao : String
  status : String
  valor_total_cents : ℤ
  fornecedor_cliente : ℕ
  faturado : ℕ
  descricao_embedding : Option (List ℚ)
deriving DecidableEq

/-- An `Installment` row. -/
structure Installment where
  account_transaction : ℕ
  identificacao : String
  data_vencimento : ℤ
  valor_parcela_cents : ℤ
  valor_pago_cents : ℤ
  valor_saldo_cents : ℤ
  status_parcela : String
deriving DecidableEq

/-! ### Extracted-invoice payload

The JSON dictionary produced by the PDF-extraction agent, as read by
`create_service_account` and the rich-text builders.  An `Option` field is
`none` when the key is absent (the `dict.get` default then applies).  The
JSON number under `valor_total` is kept as the exact rational it denotes;
its Python textual interpolation is injected as an explicit `render`
argument where a builder interpolates it. -/

/-- A party sub-dictionary (provider or invoiced). -/
structure PartyData where
  cnpj : Option String := none
  razao_social : Option String := none
  fantasia : Option String := none
  cpf_cnpj : Option String := none
  nome_completo : Option String := none
deriving DecidableEq

/-- The extracted-invoice dictionary. -/
structure ExtractedData where
  fornecedor : PartyData := {}
  faturado : PartyData := {}
  numero_nota_fiscal : Option String := none
  valor_total : Option ℚ := none
  data_emissao : Option String := none
  descricao_produtos : List String := []
  classificacao_despesa : List String := []
  quantidade_parcelas : Option ℕ := none
  data_vencimento : Option String := none
deriving DecidableEq

/-! ### Rich-context builders
(`myproject/agents/embedding/embedding_agent.py` and
`myproject/apps/core/services.py`)

Each builder assembles a triple-quoted f-string that opens and closes with
a newline and then applies `str.strip`; the embedding splits those two
newlines off as explicit appends. -/

/-- Embedding of `EmbeddingAgent.build_rich_context`.  `render` is the
Python textual interpolation of the `valor_total` JSON number. -/
def build_rich_context (render : ℚ → String) (data : ExtractedData)
    (provider_name invoiced_name : String) (classifications : List String) :
    String :=
  let numero_nf := data.numero_nota_fiscal.getD "S/N"
  let valor_total := (data.valor_total.map render).getD "0"
  let data_emissao := data.data_emissao.getD "não informada"
  let produtos := data.descricao_produtos
  let qtd_parcelas := (data.quantidade_parcelas.map Nat.repr).getD "1"
  let data_vencimento := data.data_vencimento.getD "não informada"
  pyStrip ("\n" ++
    ("Nota Fiscal: " ++ numero_nf
      ++ "\nFornecedor: " ++ provider_name
      ++ "\nCliente/Faturado: " ++ invoiced_name
      ++ "\nData de Emissão: " ++ data_emissao
      ++ "\nValor Total: R$ " ++ valor_total
      ++ "\nQuantidade de Parcelas: " ++ qtd_parcelas
      ++ "\nData de Vencimento: " ++ data_vencimento
      ++ "\n\nProdutos/Serviços:\n"
      ++ (if produtos = [] then "Não especificado" else joinSep " | " produtos)
      ++ "\n\nClassificações/Categorias de Despesa:\n"
      ++ (if classifications = [] then "Não especificado"
          else joinSep ", " classifications)
      ++ "\n\nTipo de Transação: A Pagar\nStatus: Ativo")
    ++ "\n")

/-- Embedding of `services.build_rich_text_for_embedding`, which receives
`Classification` objects rather than label strings. -/
def build_rich_text_for_embedding (render : ℚ → String) (data : ExtractedData)
    (provider_name invoiced_name : String)
    (classifications : List Classification) : String :=
  let numero_nf := data.numero_nota_fiscal.getD "S/N"
  let valor_total := (data.valor_total.map render).getD "0"
  let data_emissao := data.data_emissao.getD "não informada"
  let produtos := data.descricao_produtos
  let classificacoes_nomes :=
    if classifications = [] then []
    else classifications.map (fun c => c.descricao)
  let qtd_parcelas := (data.quantidade_parcelas.map Nat.repr).getD "1"
  let data_vencimento := data.data_vencimento.getD "não informada"
  pyStrip ("\n" ++
    ("Nota Fiscal: " ++ numero_nf
      ++ "\nFornecedor: " ++ provider_name
      ++ "\nCliente/Faturado: " ++ invoiced_name
      ++ "\nData de Emissão: " ++ data_emissao
      ++ "\nValor Total: R$ " ++ valor_total
      ++ "\nQuantidade de Parcelas: " ++ qtd_parcelas
      ++ "\nData de Vencimento: " ++ data_vencimento
      ++ "\n\nProdutos/Serviços:\n"
      ++ (if produtos = [] then "Não especificado" else joinSep " | " produtos)
      ++ "\n\nClassificações/Categorias de Despesa:\n"
      ++ (if classificacoes_nomes = [] then "Não especificado"
          else joinSep ", " classificacoes_nomes)
      ++ "\n\nTipo de Transação: A Pagar\nStatus: Ativo")
    ++ "\n")

/-! ### Calendar arithmetic

`datetime.date` values are modelled as day numbers relative to the civil
epoch 1970-01-01, via the standard days-from-civil conversion (restricted
to positive years, which is all `strptime` accepts). -/

/-- Gregorian leap-year rule. -/
def isLeapYear (y : ℕ) : Bool := (y % 4 = 0 && y % 100 ≠ 0) || y % 400 = 0

/-- Number of days of month `m` of year `y`. -/
def daysInMonth (y m : ℕ) : ℕ :=
  if m = 2 then (if isLeapYear y then 29 else 28)
  else if m = 4 ∨ m = 6 ∨ m = 9 ∨ m = 11 then 30
  else 31

/-- Day number of the civil date `y-m-d` (days since 1970-01-01). -/
def daysFromCivil (y m d : ℕ) : ℤ :=
  let yy : ℕ := if m ≤ 2 then y - 1 else y
  let era : ℕ := yy / 400
  let yoe : ℕ := yy % 400
  let mp : ℕ := if 2 < m then m - 3 else m + 9
  let doy : ℕ := (153 * mp + 2) / 5 + (d - 1)
  let doe : ℕ := yoe * 365 + yoe / 4 - yoe / 100 + doy
  (era : ℤ) * 146097 + (doe : ℤ) - 719468

/-- Decimal digit-run evaluation. -/
def digitsToNat (l : List Char) : ℕ :=
  l.foldl (fun a c => a * 10 + (c.toNat - 48)) 0

/-- A nonempty all-digit run parsed to its value. -/
def parseNatDigits (l : List Char) : Option ℕ :=
  if l ≠ [] ∧ l.all Char.isDigit then some (digitsToNat l) else none

/-- Splitting on the slash character. -/
def splitSlash : List Char → List (List Char)
  | [] => [[]]
  | c :: r =>
    if c = '/' then [] :: splitSlash r
    else
      match splitSlash r with
      | [] => [[c]]
      | g :: gs => (c :: g) :: gs

/-- Embedding of `services.parse_date`: `strptime` of a day/month/year
string, `none` for an absent value, the empty string, the literal "null",
or any string that is not a valid calendar date. -/
def parse_date (v : Option String) : Option ℤ :=
  match v with
  | none => none
  | some s =>
    if s = "" ∨ s = "null" then none
    else
      match splitSlash s.data with
      | [ds, ms, ys] =>
        match parseNatDigits ds, parseNatDigits ms, parseNatDigits ys with
        | some d, some m, some y =>
          if 1 ≤ m ∧ m ≤ 12 ∧ 1 ≤ d ∧ d ≤ daysInMonth y m ∧ 1 ≤ y ∧
              ds.length ≤ 2 ∧ ms.length ≤ 2 ∧ ys.length = 4 then
            some (daysFromCivil y m d)
          else none
        | _, _, _ => none
      | _ => none

/-! ### Money

A `numeric(10,2)` column stores, for the Python `Decimal` value written to
it, the half-away-from-zero rounding to two fraction digits (PostgreSQL
`numeric` rounding; the 28-significant-digit intermediate of `Decimal`
division is absorbed by this rounding for all realistic operands).
Computed below with integer arithmetic only, since the `Batteries`
field operations on `ℚ` are irreducible. -/

/-- Integer cents stored for the quotient `q / k` of a currency amount `q`
(in units) by a positive count `k`: half-away-from-zero rounding of
`100 * q / k`. -/
def roundCentsDiv (q : ℚ) (k : ℕ) : ℤ :=
  let n : ℤ := 100 * q.num
  let d : ℤ := (q.den : ℤ) * (k : ℤ)
  if 0 ≤ n then (2 * n + d) / (2 * d) else -((2 * (-n) + d) / (2 * d))

/-- Integer cents stored for a currency amount `q`. -/
def roundCents (q : ℚ) : ℤ := roundCentsDiv q 1

/-! ### Creation service (`myproject/apps/core/services.py`)

The Django store is a record of row lists; `objects.create` appends a row
whose id is the successor of the list length.  `create_service_account` is
decorated with `transaction.atomic`, but its `try/except` handlers sit
inside that atomic scope: a raised `ValidationError` is caught inside the
function, which then returns normally, so the surrounding transaction
commits and every row written before the raise persists.  The embedding
therefore returns, on the error paths, the store as mutated so far. -/

/-- The relational store. -/
structure Store where
  persons : List Person := []
  classifications : List Classification := []
  transactions : List AccountTransaction := []
  tx_classifications : List (ℕ × ℕ) := []
  installments : List Installment := []
deriving DecidableEq

/-- Embedding of `services.normalize_document`. -/
def normalize_document (v : Option String) : String :=
  match v with
  | none => ""
  | some s => ⟨s.data.filter Char.isDigit⟩

/-- Embedding of `services.safe_strip`. -/
def safe_strip (v : Option String) : String :=
  match v with
  | none => ""
  | some s => if s = "null" then "" else pyStrip s

/-- Python string slicing `s[:n]`. -/
def takeChars (n : ℕ) (s : String) : String := ⟨s.data.take n⟩

/-- Django `Person.objects.get_or_create` keyed on `documento`: the found
or created row, the created flag, and the store after the call. -/
def get_or_create_person (store : Store) (doc : String) (defaults : Person) :
    Person × Bool × Store :=
  match store.persons.find? (fun p => p.documento == doc) with
  | some p => (p, false, store)
  | none =>
    let p := { defaults with id := store.persons.length + 1, documento := doc }
    (p, true, { store with persons := store.persons ++ [p] })

/-- Django `save` of a mutated `Person` row. -/
def save_person (store : Store) (p : Person) : Store :=
  { store with persons := store.persons.map (fun q => if q.id == p.id then p else q) }

/-- The classification loop of `create_service_account`: strips each label,
skips empty ones, performs `get_or_create` on `descricao`, and accumulates
the associated `Classification` rows in order. -/
def add_classifications : List String → Store → List Classification →
    List Classification × Store
  | [], st, acc => (acc, st)
  | c :: r, st, acc =>
    let cs := pyStrip c
    if cs = "" then add_classifications r st acc
    else
      match st.classifications.find? (fun k => k.descricao == cs) with
      | some k => add_classifications r st (acc ++ [k])
      | none =>
        let k : Classification :=
          { id := st.classifications.length + 1, tipo := "despesa",
            descricao := cs, status := "ativo" }
        add_classifications r
          { st with classifications := st.classifications ++ [k] } (acc ++ [k])

/-- The installment loop of `create_service_account`: `qtd` rows, the i-th
(1-based) labelled `i/qtd`, due 30 days after its predecessor, fully
unpaid.  `parcelCents` is the stored per-installment amount. -/
def mkInstallments (txId : ℕ) (qtd : ℕ) (firstDue : ℤ) (parcelCents : ℤ) :
    List Installment :=
  (List.range qtd).map (fun k =>
    { account_transaction := txId,
      identificacao := Nat.repr (k + 1) ++ "/" ++ Nat.repr qtd,
      data_vencimento := firstDue + 30 * (k : ℤ),
      valor_parcela_cents := parcelCents,
      valor_pago_cents := 0,
      valor_saldo_cents := parcelCents,
      status_parcela := "aberta" })

/-- The result dictionary of `create_service_account`. -/
inductive CreateResult where
  | ok (account_transaction_id : ℕ) (numero_nota_fiscal : String)
      (fornecedor : String) (faturado : String) (valor_total : ℚ)
      (parcelas_criadas : ℕ) (classificacoes : List String)
  | err (error : String)
deriving DecidableEq

/-- Success flag of a creation result. -/
def CreateResult.isOk : CreateResult → Bool
  | .ok .. => true
  | .err _ => false

/-- The embedding-save step of `create_service_account`: when the backend
returned a vector, store it on the transaction row (an UPDATE of the
`descricao_embedding` column); otherwise leave the store unchanged. -/
def update_tx_embedding (store : Store) (txId : ℕ) (eo : Option (List ℚ)) :
    Store :=
  match eo with
  | some vec =>
    { store with transactions := store.transactions.map (fun t =>
        if t.id == txId then { t with descricao_embedding := some vec }
        else t) }
  | none => store

/-- The invoice number a payload is stored under. -/
def invoice_number_of (data : ExtractedData) : String :=
  let s := safe_strip data.numero_nota_fiscal
  if s = "" then "S/N" else s

/-- Embedding of `services.create_service_account`.  `render` is the
Python textual interpolation of JSON numbers (used by the rich-text
builder), `embedFn` the embedding backend (absent on failure, as
`get_embedding` converts every failure to `None`), `today` the clock date.
The source wraps the duplicate invoice number in single quotation marks
inside its error message; those two marks are omitted here. -/
def create_service_account (render : ℚ → String)
    (embedFn : String → Option (List ℚ)) (today : ℤ)
    (data : ExtractedData) (store : Store) : CreateResult × Store :=
  let provider_document := normalize_document data.fornecedor.cnpj
  let provider_razao := safe_strip data.fornecedor.razao_social
  let provider_fantasia : Option String :=
    if safe_strip data.fornecedor.fantasia = "" then none
    else some (safe_strip data.fornecedor.fantasia)
  if provider_document = "" ∨ provider_razao = "" then
    (.err "Dados do fornecedor incompletos (CNPJ ou Razão Social)", store)
  else
    let pcc := get_or_create_person store provider_document
      { id := 0, tipo := "fornecedor", documento := provider_document,
        razao_social := provider_razao, fantasia := provider_fantasia,
        status := "ativo" }
    let provider :=
      if pcc.2.1 then pcc.1
      else { pcc.1 with
        razao_social := provider_razao,
        fantasia := match provider_fantasia with
          | some f => some f
          | none => pcc.1.fantasia }
    let store2 := if pcc.2.1 then pcc.2.2 else save_person pcc.2.2 provider
    let invoiced_doc := normalize_document data.faturado.cpf_cnpj
    let invoiced_nome := safe_strip data.faturado.nome_completo
    if invoiced_doc = "" ∨ invoiced_nome = "" then
      (.err "Dados do faturado incompletos (CPF/CNPJ ou Nome)", store2)
    else
      let icc := get_or_create_person store2 invoiced_doc
        { id := 0, tipo := "faturado", documento := invoiced_doc,
          razao_social := invoiced_nome, fantasia := none, status := "ativo" }
      let invoiced :=
        if icc.2.1 then icc.1
        else { icc.1 with razao_social := invoiced_nome }
      let store3 := if icc.2.1 then icc.2.2 else save_person icc.2.2 invoiced
      let data_emissao := (parse_date data.data_emissao).getD today
      let total_value : ℚ := data.valor_total.getD 0
      let product_description :=
        takeChars 300 (if data.descricao_produtos = [] then "Sem descrição"
          else joinSep " | " data.descricao_produtos)
      let number_nf := invoice_number_of data
      if store3.transactions.any (fun t => t.numero_nota_fiscal == number_nf) then
        (.err ("Número da nota fiscal " ++ number_nf ++
          " já existe no banco de dados."), store3)
      else
        let tx : AccountTransaction :=
          { id := store3.transactions.length + 1, tipo := "a pagar",
            numero_nota_fiscal := number_nf, data_emissao := data_emissao,
            descricao := product_description, status := "ativo",
            valor_total_cents := roundCents total_value,
            fornecedor_cliente := provider.id, faturado := invoiced.id,
            descricao_embedding := none }
        let store4 := { store3 with transactions := store3.transactions ++ [tx] }
        let ccs := add_classifications data.classificacao_despesa store4 []
        let store5 :=
          if ccs.1 ≠ [] then
            { ccs.2 with tx_classifications :=
                ccs.2.tx_classifications ++ ccs.1.map (fun k => (tx.id, k.id)) }
          else ccs.2
        let text_to_embed := build_rich_text_for_embedding render data
          provider.razao_social invoiced.razao_social ccs.1
        let store6 := update_tx_embedding store5 tx.id (embedFn text_to_embed)
        let qtd := data.quantidade_parcelas.getD 1
        let data_venc := (parse_date data.data_vencimento).getD today
        if qtd = 0 then
          (.err "Erro inesperado: division by zero", store6)
        else
          let insts := mkInstallments tx.id qtd data_venc
            (roundCentsDiv total_value qtd)
          let store7 := { store6 with installments := store6.installments ++ insts }
          (.ok tx.id number_nf provider.razao_social invoiced.razao_social
            total_value insts.length (ccs.1.map (fun k => k.descricao)), store7)

/-! ### Context Builder, lexical (`myproject/apps/core/rag_context_builder.py`)

The regular expressions of the extractors are embedded as character
scanners; the per-entity renderers are abstracted to tagged sections
carrying the exact row lists they format (their string formatting and row
caps are outside every claim). -/

/-- `RAGContextBuilder.KEYWORDS_TOTAL`. -/
def keywords_total : List String := ["total", "soma", "somar", "quanto", "valor"]

/-- `RAGContextBuilder.KEYWORDS_COUNT`. -/
def keywords_count : List String := ["quantas", "quantos", "número de", "quantidade"]

/-- `RAGContextBuilder.KEYWORDS_LIST`. -/
def keywords_list : List String := ["listar", "liste", "mostrar", "mostre", "quais"]

/-- `RAGContextBuilder.KEYWORDS_PERSON`. -/
def keywords_person : List String := ["fornecedor", "cliente", "faturado", "empresa"]

/-- `RAGContextBuilder.KEYWORDS_CLASSIFICATION`. -/
def keywords_classification : List String :=
  ["classificação", "categoria", "despesa", "receita", "tipo"]

/-- `RAGContextBuilder.KEYWORDS_TRANSACTION`. -/
def keywords_transaction : List String :=
  ["transação", "transações", "nota", "notas", "nota fiscal", "nf"]

/-- `RAGContextBuilder.KEYWORDS_INSTALLMENT`. -/
def keywords_installment : List String := ["parcela", "parcelas", "vencimento"]

/-- `RAGContextBuilder.MONTHS`, in dictionary insertion order. -/
def months_pt : List (String × ℕ) :=
  [("janeiro", 1), ("fevereiro", 2), ("março", 3), ("abril", 4),
   ("maio", 5), ("junho", 6), ("julho", 7), ("agosto", 8),
   ("setembro", 9), ("outubro", 10), ("novembro", 11), ("dezembro", 12)]

/-- `RAGContextBuilder._contains_keywords` (substring containment). -/
def contains_keywords (q : String) (ks : List String) : Bool :=
  ks.any (fun k => containsSub k q)

/-- The constructor normalization `question.lower().strip()`. -/
def normalize_question (q : String) : String := pyStrip ⟨q.data.map pyLowerChar⟩

/-- Exactly `n` digits, returning them and the remaining input. -/
def takeDigitsN : ℕ → List Char → Option (List Char × List Char)
  | 0, l => some ([], l)
  | _ + 1, [] => none
  | n + 1, c :: r =>
    if c.isDigit then
      match takeDigitsN n r with
      | some (ds, rest) => some (c :: ds, rest)
      | none => none
    else none

/-- A greedy optional literal character, returning the consumed text and
the remaining input. -/
def optCharP (ch : Char) : List Char → List Char × List Char
  | [] => ([], [])
  | c :: r => if c = ch then ([ch], r) else ([], c :: r)

/-- One-or-more whitespace characters, greedily. -/
def matchSpaces1 : List Char → Option (List Char)
  | [] => none
  | c :: r => if isPyWs c then some (r.dropWhile isPyWs) else none

/-- One-or-more digits, greedily, returning them and the remaining input. -/
def takeDigits1 (l : List Char) : Option (List Char × List Char) :=
  let ds := l.takeWhile Char.isDigit
  if ds.isEmpty then none else some (ds, l.drop ds.length)

/-- Matcher for the CNPJ-shaped pattern: two digits, optional dot, three
digits, optional dot, three digits, optional slash, four digits, optional
dash, two digits.  Returns the matched text and the remaining input. -/
def matchCnpjAt (l : List Char) : Option (List Char × List Char) := do
  let (d1, r1) ← takeDigitsN 2 l
  let (p1, r2) := optCharP '.' r1
  let (d2, r3) ← takeDigitsN 3 r2
  let (p2, r4) := optCharP '.' r3
  let (d3, r5) ← takeDigitsN 3 r4
  let (p3, r6) := optCharP '/' r5
  let (d4, r7) ← takeDigitsN 4 r6
  let (p4, r8) := optCharP '-' r7
  let (d5, r9) ← takeDigitsN 2 r8
  some (d1 ++ p1 ++ d2 ++ p2 ++ d3 ++ p3 ++ d4 ++ p4 ++ d5, r9)

/-- Matcher for the CPF-shaped pattern: three digits, optional dot, three
digits, optional dot, three digits, optional dash, two digits. -/
def matchCpfAt (l : List Char) : Option (List Char × List Char) := do
  let (d1, r1) ← takeDigitsN 3 l
  let (p1, r2) := optCharP '.' r1
  let (d2, r3) ← takeDigitsN 3 r2
  let (p2, r4) := optCharP '.' r3
  let (d3, r5) ← takeDigitsN 3 r4
  let (p3, r6) := optCharP '-' r5
  let (d4, r7) ← takeDigitsN 2 r6
  some (d1 ++ p1 ++ d2 ++ p2 ++ d3 ++ p3 ++ d4, r7)

/-- Non-overlapping left-to-right scan of a matcher, as `re.findall`: try
the matcher at each position, resuming after each match.  The fuel equals
the input length; every matcher used here consumes at least one character
on success, so the fuel never runs out. -/
def findAllAux (matchAt : List Char → Option (List Char × List Char)) :
    ℕ → List Char → List (List Char)
  | 0, _ => []
  | _, [] => []
  | fuel + 1, c :: r =>
    match matchAt (c :: r) with
    | some (m, rest) => m :: findAllAux matchAt fuel rest
    | none => findAllAux matchAt fuel r

/-- Left-to-right scan of a matcher over a character list. -/
def findAllMatches (matchAt : List Char → Option (List Char × List Char))
    (l : List Char) : List (List Char) :=
  findAllAux matchAt l.length l

/-- Embedding of `RAGContextBuilder._extract_document_number`: CNPJ-shaped
matches then CPF-shaped matches, with dots, slashes and dashes removed. -/
def extract_document_number (q : String) : List String :=
  (findAllMatches matchCnpjAt q.data ++ findAllMatches matchCpfAt q.data).map
    (fun m => ⟨m.filter (fun c => !(c = '.' || c = '/' || c = '-'))⟩)

/-- Matcher for one invoice-number surface pattern: the given literal
words, each followed by one-or-more whitespace, then a captured digit
run.  Returns the captured digits and the remaining input. -/
def matchWordsNumberAt : List (List Char) → List Char →
    Option (List Char × List Char)
  | [], l => takeDigits1 l
  | w :: ws, l =>
    if w.isPrefixOf l then
      match matchSpaces1 (l.drop w.length) with
      | some r2 => matchWordsNumberAt ws r2
      | none => none
    else none

/-- Embedding of `RAGContextBuilder._extract_invoice_number`: the four
surface patterns, searched in order, capture groups concatenated. -/
def extract_invoice_number (q : String) : List String :=
  ([["nota".data, "fiscal".data], ["nf".data], ["nota".data], ["número".data]].map
    (fun ws => (findAllMatches (matchWordsNumberAt ws) q.data).map
      (fun m => (⟨m⟩ : String)))).flatten

/-- First occurrence of the year pattern: the characters 2, 0, then two
digits. -/
def findYear : List Char → Option ℕ
  | c1 :: c2 :: c3 :: c4 :: r =>
    if c1 = '2' ∧ c2 = '0' ∧ c3.isDigit ∧ c4.isDigit then
      some (digitsToNat [c1, c2, c3, c4])
    else findYear (c2 :: c3 :: c4 :: r)
  | _ => none

/-- Embedding of `RAGContextBuilder._extract_period`: the first month name
contained in the question resolves to that month of the mentioned year
(else of the current year `nowYear`); otherwise a bare year in the 2000s
resolves to the full calendar year; otherwise no range.  The month end is
the day before the first of the next month, as in the source. -/
def extract_period (nowYear : ℕ) (q : String) : Option (ℤ × ℤ) :=
  match months_pt.find? (fun mp => containsSub mp.1 q) with
  | some mp =>
    let year := (findYear q.data).getD nowYear
    let start_date := daysFromCivil year mp.2 1
    let end_date :=
      if mp.2 = 12 then daysFromCivil (year + 1) 1 1 - 1
      else daysFromCivil year (mp.2 + 1) 1 - 1
    some (start_date, end_date)
  | none =>
    match findYear q.data with
    | some year => some (daysFromCivil year 1 1, daysFromCivil year 12 31)
    | none => none

/-- Whitespace-splitting of a label into words, as Python `str.split()`;
the first argument accumulates the current word in reverse. -/
def splitWsAux : List Char → List Char → List (List Char)
  | acc, [] => if acc.isEmpty then [] else [acc.reverse]
  | acc, c :: r =>
    if isPyWs c then
      if acc.isEmpty then splitWsAux [] r else acc.reverse :: splitWsAux [] r
    else splitWsAux (c :: acc) r

/-- Python `str.split()` on whitespace. -/
def splitWs (l : List Char) : List (List Char) := splitWsAux [] l

/-- The ten fixed category names of
`RAGContextBuilder._extract_classification_names`. -/
def known_classifications : List String :=
  ["INSUMOS AGRÍCOLAS", "MANUTENÇÃO E OPERAÇÃO", "RECURSOS HUMANOS",
   "SERVIÇOS OPERACIONAIS", "INFRAESTRUTURA E UTILIDADES",
   "ADMINISTRATIVAS", "SEGUROS E PROTEÇÃO", "IMPOSTOS E TAXAS",
   "INVESTIMENTOS", "OUTRAS DESPESAS"]

/-- Embedding of `RAGContextBuilder._extract_classification_names`: a
category is mentioned when its full name occurs in the uppercased
question, or any of its words longer than three characters does. -/
def extract_classification_names (q : String) : List String :=
  let qU : List Char := q.data.map pyUpperChar
  known_classifications.filter (fun c =>
    containsSubL c.data qU ||
    (splitWs c.data).any (fun w => decide (w.length > 3) && containsSubL w qU))

/-- Embedding of `RAGContextBuilder._query_persons`. -/
def query_persons (store : Store) (documents : List String) : List Person :=
  store.persons.filter (fun p =>
    p.status == "ativo" && (documents.isEmpty || documents.contains p.documento))

/-- Embedding of `RAGContextBuilder._query_transactions`.  A `none` filter
argument is an absent filter; an empty person list is also not applied, as
in the source. -/
def query_transactions (store : Store) (persons : Option (List Person))
    (invoice_numbers : List String) (period : Option (ℤ × ℤ)) :
    List AccountTransaction :=
  store.transactions.filter (fun t =>
    t.status == "ativo"
    && (match persons with
        | some ps => ps.isEmpty ||
            (ps.any (fun p => p.id == t.fornecedor_cliente) ||
             ps.any (fun p => p.id == t.faturado))
        | none => true)
    && (invoice_numbers.isEmpty || invoice_numbers.contains t.numero_nota_fiscal)
    && (match period with
        | some se => decide (se.1 ≤ t.data_emissao) && decide (t.data_emissao ≤ se.2)
        | none => true))

/-- The classification refinement
`transactions.filter(classificacoes__descricao__in=names).distinct()`. -/
def filter_tx_by_classification (store : Store)
    (txs : List AccountTransaction) (names : List String) :
    List AccountTransaction :=
  txs.filter (fun t => store.tx_classifications.any (fun lk =>
    lk.1 == t.id && store.classifications.any (fun k =>
      k.id == lk.2 && names.contains k.descricao)))

/-- Embedding of `RAGContextBuilder._query_classifications`. -/
def query_classifications (store : Store) (names : List String) :
    List Classification :=
  store.classifications.filter (fun k =>
    k.status == "ativo" && (names.isEmpty || names.contains k.descricao))

/-- Embedding of `RAGContextBuilder._query_installments` (note: no status
filter in the source). -/
def query_installments (store : Store)
    (txs : Option (List AccountTransaction)) (period : Option (ℤ × ℤ)) :
    List Installment :=
  store.installments.filter (fun i =>
    (match txs with
     | some ts => ts.isEmpty || ts.any (fun t => t.id == i.account_transaction)
     | none => true)
    && (match period with
        | some se => decide (se.1 ≤ i.data_vencimento) && decide (i.data_vencimento ≤ se.2)
        | none => true))

/-- One formatted block of the produced context, tagged by the renderer
that produced it and carrying the rows it formats. -/
inductive Section where
  | personDetail (rows : List Person)
  | classificationDetail (rows : List Classification)
  | txSummary (rows : List AccountTransaction)
  | txDetail (rows : List AccountTransaction)
  | instSummary (rows : List Installment)
  | instDetail (rows : List Installment)
deriving DecidableEq

/-- Is the section one of the two aggregate renderers? -/
def Section.isAggregate : Section → Bool
  | .txSummary _ => true
  | .instSummary _ => true
  | _ => false

/-- Embedding of `RAGContextBuilder.build_context`: extraction, the four
conditional queries, and the aggregate-versus-detail renderer selection.
The returned list is `self.context_parts` (each entry appended only when
its query found rows, as in the source, whose formatters are reached only
under an `exists()` guard). -/
def build_context (nowYear : ℕ) (store : Store) (question : String) :
    List Section :=
  let q := normalize_question question
  let documents := extract_document_number q
  let invoice_numbers := extract_invoice_number q
  let period := extract_period nowYear q
  let classification_names := extract_classification_names q
  let persons : Option (List Person) :=
    if !documents.isEmpty || contains_keywords q keywords_person then
      some (query_persons store documents)
    else none
  let parts1 : List Section :=
    match persons with
    | some ps => if ps.isEmpty then [] else [Section.personDetail ps]
    | none => []
  let parts2 : List Section :=
    if !classification_names.isEmpty ||
        contains_keywords q keywords_classification then
      let ks := query_classifications store classification_names
      if ks.isEmpty then [] else [Section.classificationDetail ks]
    else []
  let txsOpt : Option (List AccountTransaction) :=
    if contains_keywords q keywords_transaction ||
        contains_keywords q keywords_total ||
        contains_keywords q keywords_count ||
        contains_keywords q keywords_list ||
        !invoice_numbers.isEmpty || period.isSome || !documents.isEmpty ||
        contains_keywords q keywords_classification then
      let t0 := query_transactions store persons invoice_numbers period
      some (if !classification_names.isEmpty && !t0.isEmpty then
          filter_tx_by_classification store t0 classification_names
        else t0)
    else none
  let parts3 : List Section :=
    match txsOpt with
    | some ts =>
      if ts.isEmpty then []
      else if contains_keywords q keywords_total ||
          contains_keywords q keywords_count then [Section.txSummary ts]
      else [Section.txDetail ts]
    | none => []
  let txTruthy := match txsOpt with | some ts => !ts.isEmpty | none => false
  let parts4 : List Section :=
    if contains_keywords q keywords_installment || txTruthy then
      let ins := query_installments store txsOpt period
      if ins.isEmpty then []
      else if contains_keywords q keywords_total ||
          contains_keywords q keywords_count then [Section.instSummary ins]
      else [Section.instDetail ins]
    else []
  parts1 ++ parts2 ++ parts3 ++ parts4

/-! ### Semantic retrieval (`myproject/apps/core/models/rag.py`)

Arithmetic on `ℚ` is performed through `Rat.divInt` on numerators and
denominators (the `Batteries` field operations are irreducible and would
block concrete evaluation); lemmas below identify these operations with
the field operations of `ℚ`. -/

/-- Subtraction on `ℚ` through numerators and denominators. -/
def qSubQ (a b : ℚ) : ℚ :=
  Rat.divInt (a.num * (b.den : ℤ) - b.num * (a.den : ℤ)) ((a.den : ℤ) * (b.den : ℤ))

/-- Multiplication on `ℚ` through numerators and denominators. -/
def qMulQ (a b : ℚ) : ℚ :=
  Rat.divInt (a.num * b.num) ((a.den : ℤ) * (b.den : ℤ))

/-- Addition on `ℚ` through numerators and denominators. -/
def qAddQ (a b : ℚ) : ℚ :=
  Rat.divInt (a.num * (b.den : ℤ) + b.num * (a.den : ℤ)) ((a.den : ℤ) * (b.den : ℤ))

/-- Squared L2 distance between two vectors (componentwise through the
reducible operations). -/
def sqDist (u v : List ℚ) : ℚ :=
  (List.zipWith (fun a b => qMulQ (qSubQ a b) (qSubQ a b)) u v).foldr qAddQ 0

/-- Sort key of the `ORDER BY L2Distance` clause: squared distance of a
transaction's stored embedding to the query vector (the square root is
monotone, so `ORDER BY` on the distance and on its square agree). -/
def txKey (qv : List ℚ) (t : AccountTransaction) : ℚ :=
  sqDist (t.descricao_embedding.getD []) qv

/-- Stable insertion into a list sorted by a key. -/
def insertSorted (key : AccountTransaction → ℚ) (t : AccountTransaction) :
    List AccountTransaction → List AccountTransaction
  | [] => [t]
  | u :: r => if key t ≤ key u then t :: u :: r else u :: insertSorted key t r

/-- Stable sort by a key, as the database `ORDER BY`. -/
def orderByKey (key : AccountTransaction → ℚ) :
    List AccountTransaction → List AccountTransaction
  | [] => []
  | t :: r => insertSorted key t (orderByKey key r)

/-- A retrieved transaction with its eagerly attached related rows
(`prefetch_related` of provider, invoiced, classifications, installments). -/
structure RetrievedTx where
  tx : AccountTransaction
  fornecedor_cliente : Option Person
  faturado : Option Person
  classificacoes : List Classification
  parcelas : List Installment
deriving DecidableEq

/-- The eager attachment of a transaction's related rows. -/
def attach_related (store : Store) (t : AccountTransaction) : RetrievedTx :=
  { tx := t,
    fornecedor_cliente := store.persons.find? (fun p => p.id == t.fornecedor_cliente),
    faturado := store.persons.find? (fun p => p.id == t.faturado),
    classificacoes := store.classifications.filter (fun k =>
      store.tx_classifications.any (fun lk => lk.1 == t.id && lk.2 == k.id)),
    parcelas := store.installments.filter (fun i => i.account_transaction == t.id) }

/-- The retrieval step of `query_semantic_rag`: transactions with a
non-null embedding, ordered by ascending embedding distance to the query
vector, truncated to `top_k`, each with its related rows attached. -/
def query_semantic_rag_search (store : Store) (qv : List ℚ) (top_k : ℕ) :
    List RetrievedTx :=
  (((orderByKey (txKey qv)
      (store.transactions.filter (fun t => t.descricao_embedding.isSome))).take
    top_k).map (attach_related store))

/-! ### Concrete fixtures used by witnesses and counterexamples -/

/-- A transaction with a stored embedding at distance 1 from the query
vector `[1]`. -/
def txEmbA : AccountTransaction :=
  { id := 1, tipo := "a pagar", numero_nota_fiscal := "10", data_emissao := 0,
    descricao := "a", status := "ativo", valor_total_cents := 100,
    fornecedor_cliente := 1, faturado := 2, descricao_embedding := some [0] }

/-- A transaction with a stored embedding at distance 2 from the query
vector `[1]`. -/
def txEmbB : AccountTransaction :=
  { id := 2, tipo := "a pagar", numero_nota_fiscal := "11", data_emissao := 0,
    descricao := "b", status := "ativo", valor_total_cents := 200,
    fornecedor_cliente := 1, faturado := 2, descricao_embedding := some [3] }

/-- A store with two embedded transactions. -/
def storeEmb : Store := { transactions := [txEmbA, txEmbB] }

/-- An extracted invoice of 100 currency units in three installments, with
complete party data and no dates. -/
def dataW : ExtractedData :=
  { fornecedor := { cnpj := some "11.222.333/0001-81",
                    razao_social := some "ACME LTDA" },
    faturado := { cpf_cnpj := some "123.456.789-01",
                  nome_completo := some "BOB" },
    valor_total := some 100,
    quantidade_parcelas := some 3 }

/-! ### Properties of `pyStrip` on newline-wrapped bodies -/

theorem stripLeftL_cons_of_ws (c : Char) (l : List Char) (h : isPyWs c = true) :
    stripLeftL (c :: l) = stripLeftL l := by
  simp [stripLeftL, List.dropWhile_cons, h]

theorem stripLeftL_cons_of_not_ws (c : Char) (l : List Char) (h : isPyWs c = false) :
    stripLeftL (c :: l) = c :: l := by
  simp [stripLeftL, List.dropWhile_cons, h]

theorem stripRightL_append_ws (l : List Char) (c : Char) (h : isPyWs c = true) :
    stripRightL (l ++ [c]) = stripRightL l := by
  simp [stripRightL, List.reverse_append, List.dropWhile_cons, h]

theorem stripRightL_append_not_ws (l : List Char) (c : Char) (h : isPyWs c = false) :
    stripRightL (l ++ [c]) = l ++ [c] := by
  simp [stripRightL, List.reverse_append, List.dropWhile_cons, h]

/-- Stripping a body wrapped in a single leading and trailing newline
returns exactly the body, whenever the body neither starts nor ends with
whitespace. -/
theorem pyStrip_wrap (core : String)
    (hh : ∃ c r, core.data = c :: r ∧ isPyWs c = false)
    (hl : ∃ c l, core.data = l ++ [c] ∧ isPyWs c = false) :
    pyStrip ("\n" ++ core ++ "\n") = core := by
  obtain ⟨ch, hr, hch, hwch⟩ := hh
  obtain ⟨cl, ll, hcl, hwcl⟩ := hl
  apply String.ext
  show pyStripL ((("\n" ++ core) ++ "\n").data) = core.data
  rw [String.data_append, String.data_append]
  show pyStripL ((['\n'] ++ core.data) ++ ['\n']) = core.data
  rw [pyStripL, stripRightL_append_ws _ _ (by decide), hcl,
    show ['\n'] ++ (ll ++ [cl]) = (['\n'] ++ ll) ++ [cl] from
      (List.append_assoc _ _ _).symm,
    stripRightL_append_not_ws _ _ hwcl,
    show (['\n'] ++ ll) ++ [cl] = '\n' :: (ll ++ [cl]) from by simp,
    stripLeftL_cons_of_ws _ _ (by decide), ← hcl, hch,
    stripLeftL_cons_of_not_ws _ _ hwch]

/-! ### Claim C1, C2: the SQL Tool Guard -/

/-- C1: for every input string and database outcome,
`executar_consulta_sql` returns a result envelope and never raises past
its own boundary.  It accepts the query SELECT id FROM t WHERE x=1,
returning a success envelope carrying count, columns and data, and it
rejects the stacked SELECT-then-DROP query, the UPDATE statement and the
empty string, each with a failure envelope. -/
theorem C1_executar_consulta_sql_envelope :
    (∀ (q : String) (db : String → Except String (List String × List (List SqlValue))),
      (∃ n cols rows, executar_consulta_sql q db = .success n cols rows) ∨
      (∃ e, executar_consulta_sql q db = .failure e))
    ∧ (∀ (db : String → Except String (List String × List (List SqlValue)))
        (cols : List String) (rows : List (List SqlValue)),
        db "SELECT id FROM t WHERE x=1" = .ok (cols, rows) →
        executar_consulta_sql "SELECT id FROM t WHERE x=1" db =
          .success (rows.map (fun r => cols.zip r)).length cols
            (rows.map (fun r => cols.zip r)))
    ∧ (∀ db, executar_consulta_sql "SELECT * FROM t; DROP TABLE t;" db =
        .failure "Query inválida: Comando DROP não é permitido")
    ∧ (∀ db, executar_consulta_sql "UPDATE t SET x=1" db =
        .failure "Query inválida: Apenas consultas SELECT são permitidas")
    ∧ (∀ db, executar_consulta_sql "" db = .failure "Query inválida: Query vazia") := by
  refine ⟨?_, ?_, ?_, ?_, ?_⟩
  · intro q db
    cases h : executar_consulta_sql q db with
    | success n c r => exact Or.inl ⟨n, c, r, rfl⟩
    | failure e => exact Or.inr ⟨e, rfl⟩
  · intro db cols rows h
    have hv : validate_sql_query "SELECT id FROM t WHERE x=1" = (true, "") := by
      decide
    simp [executar_consulta_sql, hv, h]
  · intro db
    have hv : validate_sql_query "SELECT * FROM t; DROP TABLE t;" =
        (false, "Comando DROP não é permitido") := by decide
    simp [executar_consulta_sql, hv]
  · intro db
    have hv : validate_sql_query "UPDATE t SET x=1" =
        (false, "Apenas consultas SELECT são permitidas") := by decide
    simp [executar_consulta_sql, hv]
  · intro db
    have hv : validate_sql_query "" = (false, "Query vazia") := by decide
    simp [executar_consulta_sql, hv]

/-- Witness for C1: a concrete one-row database yields the success
envelope on the accepted query. -/
theorem C1_executar_consulta_sql_envelope_witness :
    executar_consulta_sql "SELECT id FROM t WHERE x=1"
      (fun _ => .ok (["id"], [[SqlValue.vInt 1]])) =
      .success 1 ["id"] [[("id", SqlValue.vInt 1)]] :=
  C1_executar_consulta_sql_envelope.2.1
    (fun _ => .ok (["id"], [[SqlValue.vInt 1]])) ["id"] [[SqlValue.vInt 1]] rfl

/-- C2: the claim states that a semicolon at any non-final position makes
validation fail even when the query also ends with a semicolon.  The code
only rejects when the cleaned query does not end with a semicolon, so the
stacked query SELECT 1; SELECT 2; (a semicolon at position 8 of 19, well
before the end) passes validation.  The validator's own comment and error
message say multiple SQL statements must be rejected, so the code
contradicts its documented intent on this input. -/
theorem C2_stacked_select_accepted :
    "SELECT 1; SELECT 2;".data[8]? = some ';'
    ∧ "SELECT 1; SELECT 2;".data.length = 19
    ∧ validate_sql_query "SELECT 1; SELECT 2;" = (true, "") := by decide

/-! ### Claim C7: the retry/backoff wrapper -/

/-- C7: an operation failing on attempts 1 and 2 (under any exception
classes) and succeeding on attempt 3 makes the wrapper return the success
payload after exactly 3 invocations with sleeps of 1 and 2 times the base
delay; when attempt 3 also fails, the wrapper returns the structured
envelope carrying the error text and the attempt count instead of
propagating. -/
theorem C7_retry_with_backoff_behavior {α : Type} (op : ℕ → Except PyExc α)
    (d : ℕ) (a : α) (e1 e2 : PyExc) :
    (op 1 = .error e1 → op 2 = .error e2 → op 3 = .ok a →
      retry_with_backoff op 3 d = (.ok a, [d * 1, d * 2], 3))
    ∧ (∀ e3 : PyExc, op 1 = .error e1 → op 2 = .error e2 → op 3 = .error e3 →
      retry_with_backoff op 3 d =
        (.failed (retryFinalError e3) 3, [d * 1, d * 2], 3)) := by
  constructor
  · intro h1 h2 h3
    simp [retry_with_backoff, retryGo, h1, h2, h3]
  · intro e3 h1 h2 h3
    simp [retry_with_backoff, retryGo, h1, h2, h3]

/-- Witness for C7: a concrete operation failing twice then succeeding. -/
theorem C7_retry_with_backoff_behavior_witness :
    retry_with_backoff
      (fun n => if n = 3 then Except.ok 42 else .error (.jsonDecodeError "bad"))
      3 5 = (.ok 42, [5 * 1, 5 * 2], 3) :=
  (C7_retry_with_backoff_behavior
    (fun n => if n = 3 then Except.ok 42 else .error (.jsonDecodeError "bad"))
    5 42 (.jsonDecodeError "bad") (.jsonDecodeError "bad")).1 rfl rfl rfl

/-! ### Claims C9, C10: the rich-text builders -/

/-- A nonempty-headed string prepended to anything yields data starting
with that head character. -/
theorem exists_head_cons (s t : String) (c : Char) (r : List Char)
    (h : s.data = c :: r) (hw : isPyWs c = false) :
    ∃ c2 r2, (s ++ t).data = c2 :: r2 ∧ isPyWs c2 = false := by
  refine ⟨c, r ++ t.data, ?_, hw⟩
  rw [String.data_append, h, List.cons_append]

/-- A string with a known last character appended to anything yields data
ending with that character. -/
theorem exists_last_snoc (t s : String) (c : Char) (l : List Char)
    (h : s.data = l ++ [c]) (hw : isPyWs c = false) :
    ∃ c2 l2, (t ++ s).data = l2 ++ [c2] ∧ isPyWs c2 = false := by
  refine ⟨c, t.data ++ l, ?_, hw⟩
  rw [String.data_append, h, List.append_assoc]

/-- C9: `build_rich_context` is a deterministic template: the output is
exactly the fixed interpolation with fallback S/N for a missing invoice
number, pipe-joined products with a literal fallback, comma-joined
classification labels with the same fallback, and the two fixed trailer
lines; and two calls on identical inputs are byte-identical. -/
theorem C9_build_rich_context_template (render : ℚ → String)
    (data : ExtractedData) (p i : String) (cls : List String) :
    build_rich_context render data p i cls =
      "Nota Fiscal: " ++ data.numero_nota_fiscal.getD "S/N"
      ++ "\nFornecedor: " ++ p
      ++ "\nCliente/Faturado: " ++ i
      ++ "\nData de Emissão: " ++ data.data_emissao.getD "não informada"
      ++ "\nValor Total: R$ " ++ (data.valor_total.map render).getD "0"
      ++ "\nQuantidade de Parcelas: " ++
        (data.quantidade_parcelas.map Nat.repr).getD "1"
      ++ "\nData de Vencimento: " ++ data.data_vencimento.getD "não informada"
      ++ "\n\nProdutos/Serviços:\n"
      ++ (if data.descricao_produtos = [] then "Não especificado"
          else joinSep " | " data.descricao_produtos)
      ++ "\n\nClassificações/Categorias de Despesa:\n"
      ++ (if cls = [] then "Não especificado" else joinSep ", " cls)
      ++ "\n\nTipo de Transação: A Pagar\nStatus: Ativo"
    ∧ (∀ (data2 : ExtractedData) (p2 i2 : String) (cls2 : List String),
        data2 = data → p2 = p → i2 = i → cls2 = cls →
        build_rich_context render data2 p2 i2 cls2 =
          build_rich_context render data p i cls) := by
  constructor
  · simp only [build_rich_context]
    apply pyStrip_wrap
    · simp only [String.append_assoc]
      exact exists_head_cons _ _ 'N' "ota Fiscal: ".data (by decide) (by decide)
    · exact exists_last_snoc _ "\n\nTipo de Transação: A Pagar\nStatus: Ativo"
        'o' "\n\nTipo de Transação: A Pagar\nStatus: Ativ".data (by decide)
        (by decide)
  · intro data2 p2 i2 cls2 h1 h2 h3 h4
    rw [h1, h2, h3, h4]

/-- Witness for C9: the two-call conjunct at a concrete input. -/
theorem C9_build_rich_context_template_witness :
    build_rich_context (fun _ => "") {} "P" "I" [] =
      build_rich_context (fun _ => "") {} "P" "I" [] :=
  (C9_build_rich_context_template (fun _ => "") {} "P" "I" []).2
    {} "P" "I" [] rfl rfl rfl rfl

/-- C10: the two rich-text builders are extensionally equal: the service
builder applied to classification objects returns exactly the agent
builder applied to the objects' labels. -/
theorem C10_rich_text_builders_agree (render : ℚ → String)
    (data : ExtractedData) (p i : String) (objs : List Classification) :
    build_rich_text_for_embedding render data p i objs =
      build_rich_context render data p i (objs.map (fun c => c.descricao)) := by
  cases objs with
  | nil => rfl
  | cons a t => simp [build_rich_text_for_embedding, build_rich_context]

/-! ### Claim C4: the session store -/

/-- Under unique keys, `find?` locates exactly the stored pair. -/
theorem find?_key_of_nodup (l : List (String × ChatSession)) (id : String)
    (s : ChatSession) (hnd : (l.map Prod.fst).Nodup) (hmem : (id, s) ∈ l) :
    l.find? (fun p => p.1 == id) = some (id, s) := by
  induction l with
  | nil => cases hmem
  | cons hd tl ih =>
    rw [List.map_cons, List.nodup_cons] at hnd
    rcases List.mem_cons.mp hmem with he | hmemtl
    · subst he
      exact List.find?_cons_of_pos _ (by simp)
    · have hne : hd.1 ≠ id := by
        intro he
        exact hnd.1 (he ▸ List.mem_map.mpr ⟨(id, s), hmemtl, rfl⟩)
      rw [List.find?_cons_of_neg _ (by simp [hne])]
      exact ih hnd.2 hmemtl

/-- Under unique keys, a pair sharing the stored key is the stored pair. -/
theorem key_unique (l : List (String × ChatSession)) (id : String)
    (s : ChatSession) (hnd : (l.map Prod.fst).Nodup) (hmem : (id, s) ∈ l)
    (p : String × ChatSession) (hp : p ∈ l) (he : p.1 = id) : p = (id, s) := by
  induction l with
  | nil => cases hmem
  | cons hd tl ih =>
    rw [List.map_cons, List.nodup_cons] at hnd
    rcases List.mem_cons.mp hmem with hm | hmemtl
    · subst hm
      rcases List.mem_cons.mp hp with hp1 | hptl
      · exact hp1
      · exact absurd (he ▸ List.mem_map.mpr ⟨p, hptl, rfl⟩) hnd.1
    · rcases List.mem_cons.mp hp with hp1 | hptl
      · subst hp1
        exact absurd (he ▸ List.mem_map.mpr ⟨(id, s), hmemtl, rfl⟩) hnd.1
      · exact ih hnd.2 hmemtl hptl

/-- C4 (amended): `get_session` first sweeps every entry whose age reached
the TTL; a stored session fetched strictly before its last access plus the
TTL is returned with its `last_accessed` refreshed to now; a stored
session whose age reached the TTL is absent from the result and from the
swept store, and `get_session_count` counts exactly the swept store, which
retains only valid sessions.  (Absence is signalled by `none` in both the
expired and the never-stored case; see the counterexample.) -/
theorem C4_get_session_ttl (ttl now : ℤ) (id : String) (s : ChatSession)
    (store : SessionStore) (hnd : (store.map Prod.fst).Nodup)
    (hmem : (id, s) ∈ store) :
    (now - s.last_accessed < ttl →
      (get_session ttl now id store).1 = some { s with last_accessed := now })
    ∧ (ttl ≤ now - s.last_accessed →
      (get_session ttl now id store).1 = none
      ∧ (∀ p ∈ (get_session ttl now id store).2, p.1 ≠ id)
      ∧ (get_session_count ttl now store).1 =
          (cleanup_expired_sessions ttl now store).length
      ∧ (id, s) ∉ (get_session_count ttl now store).2)
    ∧ (∀ p ∈ (get_session_count ttl now store).2,
        is_session_valid ttl now p.2 = true) := by
  refine ⟨?_, ?_, ?_⟩
  · intro h
    have hval : is_session_valid ttl now s = true := by
      simp [is_session_valid, h]
    have hmem1 : (id, s) ∈ cleanup_expired_sessions ttl now store := by
      simp only [cleanup_expired_sessions, List.mem_filter]
      exact ⟨hmem, hval⟩
    have hsub : List.Sublist (cleanup_expired_sessions ttl now store) store :=
      List.filter_sublist _
    have hnd1 : ((cleanup_expired_sessions ttl now store).map Prod.fst).Nodup :=
      hnd.sublist (hsub.map Prod.fst)
    have hf := find?_key_of_nodup _ id s hnd1 hmem1
    simp only [get_session, hf, hval, if_true]
  · intro h
    have hval : is_session_valid ttl now s = false := by
      simp [is_session_valid]; omega
    have hmemkill : ∀ p, p ∈ cleanup_expired_sessions ttl now store →
        p.1 ≠ id := by
      intro p hp he
      simp only [cleanup_expired_sessions, List.mem_filter] at hp
      have hpe := key_unique store id s hnd hmem p hp.1 he
      subst hpe
      rw [hval] at hp
      exact absurd hp.2 (by simp)
    have hnone : (cleanup_expired_sessions ttl now store).find?
        (fun p => p.1 == id) = none := by
      rw [List.find?_eq_none]
      intro p hp
      simp only [beq_iff_eq]
      exact hmemkill p hp
    refine ⟨?_, ?_, rfl, ?_⟩
    · simp only [get_session, hnone]
    · intro p hp
      simp only [get_session, hnone] at hp
      exact hmemkill p hp
    · intro hmemc
      simp only [get_session_count] at hmemc
      exact hmemkill (id, s) hmemc rfl
  · intro p hp
    simp only [get_session_count, cleanup_expired_sessions,
      List.mem_filter] at hp
    exact hp.2

/-- Witness for C4: a fresh session is returned refreshed. -/
theorem C4_get_session_ttl_witness :
    (get_session 1800 100 "s1" [("s1", ⟨"c", "simple", 0, 0, 0⟩)]).1 =
      some ⟨"c", "simple", 0, 100, 0⟩ :=
  (C4_get_session_ttl 1800 100 "s1" ⟨"c", "simple", 0, 0, 0⟩
    [("s1", ⟨"c", "simple", 0, 0, 0⟩)] (by decide) (by decide)).1 (by decide)

/-- C4 counterexample: the claim requires absence of an expired session to
be signalled distinctly from a never-stored identifier, but `get_session`
returns the very same result (`none`, with the same swept store) for an
expired session and for an unknown identifier. -/
theorem C4_absence_not_distinct :
    (get_session 1800 1800 "s1" [("s1", ⟨"chat", "embedding", 0, 0, 0⟩)]).1 = none
    ∧ (get_session 1800 1800 "missing"
        [("s1", ⟨"chat", "embedding", 0, 0, 0⟩)]).1 = none
    ∧ (get_session 1800 1800 "s1" [("s1", ⟨"chat", "embedding", 0, 0, 0⟩)]) =
      (get_session 1800 1800 "missing"
        [("s1", ⟨"chat", "embedding", 0, 0, 0⟩)]) := by decide

/-! ### Claim C6: the lexical context builder on the March-total question -/

/-- The question of C6 resolves to the calendar range of March 2024,
independently of the current year. -/
theorem extract_period_march (ny : ℕ) :
    extract_period ny "total gasto em março de 2024" =
      some (daysFromCivil 2024 3 1, daysFromCivil 2024 3 31) := by
  unfold extract_period
  rw [show months_pt.find?
      (fun mp => containsSub mp.1 "total gasto em março de 2024") =
      some ("março", 3) from by decide]
  rw [show findYear "total gasto em março de 2024".data = some 2024 from by
    decide]
  simp only [Option.getD_some]
  decide

/-- C6 (amended): on the question requesting the March 2024 total, with no
other filters, `build_context` produces only aggregate sections: the
transaction summary over exactly the active transactions issued between
March 1 and March 31 2024, followed — whenever those transactions have
installments due in the same range — by an installment summary; never a
detail listing. -/
theorem C6_march_total_aggregate_only (ny : ℕ) (store : Store) :
    extract_period ny (normalize_question "total gasto em março de 2024") =
      some (daysFromCivil 2024 3 1, daysFromCivil 2024 3 31)
    ∧ build_context ny store "total gasto em março de 2024" =
      (let txs := query_transactions store none []
          (some (daysFromCivil 2024 3 1, daysFromCivil 2024 3 31))
       let ins := query_installments store (some txs)
          (some (daysFromCivil 2024 3 1, daysFromCivil 2024 3 31))
       (if txs.isEmpty then [] else [Section.txSummary txs]) ++
        (if txs.isEmpty then []
         else if ins.isEmpty then [] else [Section.instSummary ins]))
    ∧ (build_context ny store "total gasto em março de 2024").all
        Section.isAggregate = true := by
  have hq : normalize_question "total gasto em março de 2024" =
      "total gasto em março de 2024" := by decide
  have hdoc : extract_document_number "total gasto em março de 2024" = [] := by
    decide
  have hinv : extract_invoice_number "total gasto em março de 2024" = [] := by
    decide
  have hcls : extract_classification_names "total gasto em março de 2024" =
      [] := by decide
  have hkT : contains_keywords "total gasto em março de 2024" keywords_total =
      true := by decide
  have hkP : contains_keywords "total gasto em março de 2024" keywords_person =
      false := by decide
  have hkC : contains_keywords "total gasto em março de 2024"
      keywords_classification = false := by decide
  have hkTr : contains_keywords "total gasto em março de 2024"
      keywords_transaction = false := by decide
  have hkCt : contains_keywords "total gasto em março de 2024"
      keywords_count = false := by decide
  have hkL : contains_keywords "total gasto em março de 2024"
      keywords_list = false := by decide
  have hkI : contains_keywords "total gasto em março de 2024"
      keywords_installment = false := by decide
  have hper := extract_period_march ny
  refine ⟨by rw [hq]; exact hper, ?_, ?_⟩
  · simp only [build_context, hq, hdoc, hinv, hcls, hper, hkT, hkP, hkC,
      hkTr, hkCt, hkL, hkI, List.isEmpty_nil, Bool.not_true, Bool.false_or,
      Bool.or_true, Bool.true_or, Bool.or_false, if_false, if_true,
      Bool.false_and, Bool.and_false, List.nil_append, Option.isSome_some]
    by_cases he : (query_transactions store none []
        (some (daysFromCivil 2024 3 1, daysFromCivil 2024 3 31))).isEmpty
    · simp [he]
    · simp [he]
  · simp only [build_context, hq, hdoc, hinv, hcls, hper, hkT, hkP, hkC,
      hkTr, hkCt, hkL, hkI, List.isEmpty_nil, Bool.not_true, Bool.false_or,
      Bool.or_true, Bool.true_or, Bool.or_false, if_false, if_true,
      Bool.false_and, Bool.and_false, List.nil_append, Option.isSome_some]
    by_cases he : (query_transactions store none []
        (some (daysFromCivil 2024 3 1, daysFromCivil 2024 3 31))).isEmpty
    · simp [he]
    · by_cases hi : (query_installments store
          (some (query_transactions store none []
            (some (daysFromCivil 2024 3 1, daysFromCivil 2024 3 31))))
          (some (daysFromCivil 2024 3 1, daysFromCivil 2024 3 31))).isEmpty
      · simp [he, hi, Section.isAggregate]
      · simp [he, hi, Section.isAggregate]

/-- C6 counterexample: the claim as stated says only a transaction
aggregate section is produced, but on a store whose matched March-2024
transaction also has an installment due in that range the builder emits an
installment aggregate section as well (a two-section context). -/
theorem C6_installment_section_also_produced :
    (let tx : AccountTransaction :=
      { id := 1, tipo := "a pagar", numero_nota_fiscal := "7",
        data_emissao := 19797, descricao := "x", status := "ativo",
        valor_total_cents := 100000, fornecedor_cliente := 1, faturado := 2,
        descricao_embedding := none }
     let inst : Installment :=
      { account_transaction := 1, identificacao := "1/1",
        data_vencimento := 19797, valor_parcela_cents := 100000,
        valor_pago_cents := 0, valor_saldo_cents := 100000,
        status_parcela := "aberta" }
     let st : Store := { transactions := [tx], installments := [inst] }
     build_context 2025 st "total gasto em março de 2024" =
       [Section.txSummary [tx], Section.instSummary [inst]]
     ∧ (build_context 2025 st "total gasto em março de 2024").length = 2) := by
  decide

/-! ### Claim C8: semantic retrieval -/

theorem mul_den_eq_num (a : ℚ) : (a : ℚ) * (a.den : ℚ) = (a.num : ℚ) := by
  have ha : ((a.den : ℚ)) ≠ 0 := by
    exact_mod_cast a.den_nz
  have h2 : (a.num : ℚ) / (a.den : ℚ) * (a.den : ℚ) = (a.num : ℚ) :=
    div_mul_cancel₀ _ ha
  rw [Rat.num_div_den a] at h2
  exact h2

theorem qSubQ_eq (a b : ℚ) : qSubQ a b = a - b := by
  have ha : ((a.den : ℚ)) ≠ 0 := by
    exact_mod_cast a.den_nz
  have hb : ((b.den : ℚ)) ≠ 0 := by
    exact_mod_cast b.den_nz
  rw [qSubQ, Rat.divInt_eq_div]
  push_cast
  rw [div_eq_iff (mul_ne_zero ha hb), ← mul_den_eq_num a, ← mul_den_eq_num b]
  ring

theorem qMulQ_eq (a b : ℚ) : qMulQ a b = a * b := by
  have ha : ((a.den : ℚ)) ≠ 0 := by
    exact_mod_cast a.den_nz
  have hb : ((b.den : ℚ)) ≠ 0 := by
    exact_mod_cast b.den_nz
  rw [qMulQ, Rat.divInt_eq_div]
  push_cast
  rw [div_eq_iff (mul_ne_zero ha hb), ← mul_den_eq_num a, ← mul_den_eq_num b]
  ring

theorem qAddQ_eq (a b : ℚ) : qAddQ a b = a + b := by
  have ha : ((a.den : ℚ)) ≠ 0 := by
    exact_mod_cast a.den_nz
  have hb : ((b.den : ℚ)) ≠ 0 := by
    exact_mod_cast b.den_nz
  rw [qAddQ, Rat.divInt_eq_div]
  push_cast
  rw [div_eq_iff (mul_ne_zero ha hb), ← mul_den_eq_num a, ← mul_den_eq_num b]
  ring

theorem foldr_qAddQ_eq_sum (l : List ℚ) : l.foldr qAddQ 0 = l.sum := by
  induction l with
  | nil => rfl
  | cons x r ih => rw [List.foldr_cons, qAddQ_eq, ih, List.sum_cons]

/-- The squared-distance scanner computes the sum of squared
componentwise differences. -/
theorem sqDist_eq (u v : List ℚ) :
    sqDist u v = (List.zipWith (fun a b => (a - b) * (a - b)) u v).sum := by
  rw [sqDist]
  simp only [qSubQ_eq, qMulQ_eq]
  exact foldr_qAddQ_eq_sum _

theorem mem_insertSorted (key : AccountTransaction → ℚ)
    (t u : AccountTransaction) (l : List AccountTransaction) :
    u ∈ insertSorted key t l ↔ u = t ∨ u ∈ l := by
  induction l with
  | nil => simp [insertSorted]
  | cons v r ih =>
    rw [insertSorted]
    by_cases h : key t ≤ key v
    · simp [h]
    · simp only [if_neg h, List.mem_cons, ih]
      tauto

theorem sorted_insertSorted (key : AccountTransaction → ℚ)
    (t : AccountTransaction) (l : List AccountTransaction)
    (h : List.Sorted (fun a b => key a ≤ key b) l) :
    List.Sorted (fun a b => key a ≤ key b) (insertSorted key t l) := by
  induction l with
  | nil => simp [insertSorted]
  | cons v r ih =>
    rw [List.sorted_cons] at h
    rw [insertSorted]
    by_cases hc : key t ≤ key v
    · rw [if_pos hc, List.sorted_cons]
      refine ⟨?_, List.sorted_cons.mpr h⟩
      intro b hb
      rcases List.mem_cons.mp hb with rfl | hbr
      · exact hc
      · exact le_trans hc (h.1 b hbr)
    · rw [if_neg hc, List.sorted_cons]
      refine ⟨?_, ih h.2⟩
      intro b hb
      rcases (mem_insertSorted key t b r).mp hb with rfl | hbr
      · exact le_of_not_le hc
      · exact h.1 b hbr

theorem sorted_orderByKey (key : AccountTransaction → ℚ)
    (l : List AccountTransaction) :
    List.Sorted (fun a b => key a ≤ key b) (orderByKey key l) := by
  induction l with
  | nil => simp [orderByKey]
  | cons t r ih => exact sorted_insertSorted key t _ ih

theorem mem_orderByKey (key : AccountTransaction → ℚ)
    (u : AccountTransaction) (l : List AccountTransaction) :
    u ∈ orderByKey key l ↔ u ∈ l := by
  induction l with
  | nil => simp [orderByKey]
  | cons t r ih =>
    rw [orderByKey, mem_insertSorted, ih, List.mem_cons]

/-- C8: the semantic retrieval considers only transactions with a non-null
embedding, orders them by ascending Euclidean (L2) distance between their
embedding and the query vector (equivalently by its square, as the square
root is monotone — both orderings are stated), returns at most `top_k`
rows, and attaches to each returned transaction its provider, invoiced
party, classifications and installments from the store; the distance is
the sum of squared componentwise differences. -/
theorem C8_semantic_search (store : Store) (qv : List ℚ) (top_k : ℕ) :
    (query_semantic_rag_search store qv top_k).length ≤ top_k
    ∧ (∀ r ∈ query_semantic_rag_search store qv top_k,
        r.tx.descricao_embedding.isSome = true
        ∧ r.tx ∈ store.transactions
        ∧ r = attach_related store r.tx)
    ∧ List.Sorted (fun a b => txKey qv a.tx ≤ txKey qv b.tx)
        (query_semantic_rag_search store qv top_k)
    ∧ List.Sorted (fun a b =>
        Real.sqrt ((txKey qv a.tx : ℚ) : ℝ) ≤
          Real.sqrt ((txKey qv b.tx : ℚ) : ℝ))
        (query_semantic_rag_search store qv top_k)
    ∧ (∀ u v : List ℚ, sqDist u v =
        (List.zipWith (fun a b => (a - b) * (a - b)) u v).sum) := by
  have hsorted : List.Sorted (fun a b => txKey qv a ≤ txKey qv b)
      (orderByKey (txKey qv)
        (store.transactions.filter (fun t => t.descricao_embedding.isSome))) :=
    sorted_orderByKey _ _
  have hsortedTake : List.Sorted (fun a b => txKey qv a ≤ txKey qv b)
      ((orderByKey (txKey qv)
        (store.transactions.filter
          (fun t => t.descricao_embedding.isSome))).take top_k) :=
    List.Pairwise.sublist (List.take_sublist _ _) hsorted
  refine ⟨?_, ?_, ?_, ?_, sqDist_eq⟩
  · rw [query_semantic_rag_search, List.length_map]
    exact List.length_take_le _ _
  · intro r hr
    rw [query_semantic_rag_search, List.mem_map] at hr
    obtain ⟨t, ht, rfl⟩ := hr
    have ht2 : t ∈ store.transactions.filter
        (fun t => t.descricao_embedding.isSome) :=
      (mem_orderByKey _ _ _).mp (List.mem_of_mem_take ht)
    rw [List.mem_filter] at ht2
    exact ⟨ht2.2, ht2.1, rfl⟩
  · rw [query_semantic_rag_search, List.Sorted, List.pairwise_map]
    exact hsortedTake
  · rw [query_semantic_rag_search, List.Sorted, List.pairwise_map]
    refine hsortedTake.imp ?_
    intro a b h
    exact Real.sqrt_le_sqrt (by exact_mod_cast h)

/-- Witness for C8: the nearest stored transaction is retrieved with its
related rows attached, its embedding non-null. -/
theorem C8_semantic_search_witness :
    (attach_related storeEmb txEmbA).tx.descricao_embedding.isSome = true
    ∧ (attach_related storeEmb txEmbA).tx ∈ storeEmb.transactions
    ∧ attach_related storeEmb txEmbA =
      attach_related storeEmb (attach_related storeEmb txEmbA).tx :=
  (C8_semantic_search storeEmb [1] 5).2.1 (attach_related storeEmb txEmbA)
    (by decide)

/-! ### Claim C3: duplicate invoice numbers and atomicity -/

/-- C3: creating a transaction whose invoice number duplicates a stored
one does fail with a validation error, but it does not leave the store
unchanged: the provider and invoiced `Person` rows written before the
duplicate check persist, because the `ValidationError` is caught inside
the `transaction.atomic` scope and the transaction commits.  Here the
store starts with one transaction numbered 100 and no persons; after the
failed call two new `Person` rows persist (while no transaction,
classification or installment row was added). -/
theorem C3_duplicate_invoice_persists_parties :
    (let data : ExtractedData :=
      { fornecedor := { cnpj := some "11.222.333/0001-81",
                        razao_social := some "ACME LTDA" },
        faturado := { cpf_cnpj := some "123.456.789-01",
                      nome_completo := some "BOB" },
        numero_nota_fiscal := some "100", valor_total := some 50,
        quantidade_parcelas := some 1 }
     let txOld : AccountTransaction :=
      { id := 1, tipo := "a pagar", numero_nota_fiscal := "100",
        data_emissao := 0, descricao := "x", status := "ativo",
        valor_total_cents := 5000, fornecedor_cliente := 1, faturado := 2,
        descricao_embedding := none }
     let st : Store := { transactions := [txOld] }
     let res := create_service_account (fun _ => "") (fun _ => none) 0 data st
     res.1 = .err "Número da nota fiscal 100 já existe no banco de dados."
     ∧ res.2.persons.length = 2
     ∧ st.persons.length = 0
     ∧ res.2.transactions = st.transactions
     ∧ res.2.classifications = []
     ∧ res.2.installments = []) := by decide

/-! ### Claim C5: the installment schedule -/

theorem roundCentsDiv_bound (q : ℚ) (k : ℕ) (hk : 0 < k) :
    |2 * ((q.den : ℤ) * (k : ℤ)) * roundCentsDiv q k - 2 * (100 * q.num)| ≤
      (q.den : ℤ) * (k : ℤ) := by
  have hden : (0 : ℤ) < (q.den : ℤ) := by
    exact_mod_cast Nat.pos_of_ne_zero q.den_nz
  have hd : (0 : ℤ) < (q.den : ℤ) * (k : ℤ) := by
    have : (0 : ℤ) < (k : ℤ) := by exact_mod_cast hk
    positivity
  rw [roundCentsDiv]
  by_cases hn : 0 ≤ 100 * q.num
  · rw [if_pos hn]
    have h1 := Int.ediv_add_emod (2 * (100 * q.num) + (q.den : ℤ) * (k : ℤ))
      (2 * ((q.den : ℤ) * (k : ℤ)))
    have h2 := Int.emod_nonneg (2 * (100 * q.num) + (q.den : ℤ) * (k : ℤ))
      (by omega : 2 * ((q.den : ℤ) * (k : ℤ)) ≠ 0)
    have h3 := Int.emod_lt_of_pos (2 * (100 * q.num) + (q.den : ℤ) * (k : ℤ))
      (by omega : 0 < 2 * ((q.den : ℤ) * (k : ℤ)))
    rw [abs_le]
    omega
  · rw [if_neg hn]
    have h1 := Int.ediv_add_emod (2 * -(100 * q.num) + (q.den : ℤ) * (k : ℤ))
      (2 * ((q.den : ℤ) * (k : ℤ)))
    have h2 := Int.emod_nonneg (2 * -(100 * q.num) + (q.den : ℤ) * (k : ℤ))
      (by omega : 2 * ((q.den : ℤ) * (k : ℤ)) ≠ 0)
    have h3 := Int.emod_lt_of_pos (2 * -(100 * q.num) + (q.den : ℤ) * (k : ℤ))
      (by omega : 0 < 2 * ((q.den : ℤ) * (k : ℤ)))
    have h0 : 2 * ((q.den : ℤ) * (k : ℤ)) *
        -((2 * -(100 * q.num) + (q.den : ℤ) * (k : ℤ)) /
          (2 * ((q.den : ℤ) * (k : ℤ)))) =
        -(2 * ((q.den : ℤ) * (k : ℤ)) *
          ((2 * -(100 * q.num) + (q.den : ℤ) * (k : ℤ)) /
            (2 * ((q.den : ℤ) * (k : ℤ))))) := by ring
    rw [abs_le]
    omega

/-- The per-installment rounding keeps `N` stored amounts within `N`
half-cents of the exact total. -/
theorem sum_cents_close (q : ℚ) (N : ℕ) (hN : 0 < N) :
    2 * |(N : ℚ) * ((roundCentsDiv q N : ℤ) : ℚ) - 100 * q| ≤ (N : ℚ) := by
  have hden : (0 : ℚ) < (q.den : ℚ) := by
    exact_mod_cast Nat.pos_of_ne_zero q.den_nz
  have hb := roundCentsDiv_bound q N hN
  have hbq : |2 * ((q.den : ℚ) * (N : ℚ)) * ((roundCentsDiv q N : ℤ) : ℚ) -
      2 * (100 * (q.num : ℚ))| ≤ (q.den : ℚ) * (N : ℚ) := by
    exact_mod_cast hb
  have hnum : (q.num : ℚ) = q * (q.den : ℚ) := (mul_den_eq_num q).symm
  rw [hnum] at hbq
  have h4 : 2 * ((q.den : ℚ) * (N : ℚ)) * ((roundCentsDiv q N : ℤ) : ℚ) -
      2 * (100 * (q * (q.den : ℚ))) =
      (q.den : ℚ) *
        (2 * ((N : ℚ) * ((roundCentsDiv q N : ℤ) : ℚ) - 100 * q)) := by
    ring
  rw [h4, abs_mul, abs_of_nonneg (le_of_lt hden), abs_mul,
    abs_of_nonneg (by norm_num : (0 : ℚ) ≤ 2)] at hbq
  exact le_of_mul_le_mul_left hbq hden

theorem mkInstallments_length (txId qtd : ℕ) (d0 c : ℤ) :
    (mkInstallments txId qtd d0 c).length = qtd := by
  simp [mkInstallments]

theorem mkInstallments_get (txId qtd : ℕ) (d0 c : ℤ) (j : ℕ) (hj : j < qtd) :
    (mkInstallments txId qtd d0 c)[j]? =
      some
        { account_transaction := txId,
          identificacao := Nat.repr (j + 1) ++ "/" ++ Nat.repr qtd,
          data_vencimento := d0 + 30 * (j : ℤ),
          valor_parcela_cents := c, valor_pago_cents := 0,
          valor_saldo_cents := c, status_parcela := "aberta" } := by
  simp [mkInstallments, List.getElem?_map, List.getElem?_range, hj]

theorem mkInstallments_sum (txId qtd : ℕ) (d0 c : ℤ) :
    ((mkInstallments txId qtd d0 c).map
      (fun i => i.valor_parcela_cents)).sum = (qtd : ℤ) * c := by
  rw [mkInstallments, List.map_map]
  change ((List.range qtd).map (fun _ => c)).sum = (qtd : ℤ) * c
  rw [List.map_const', List.length_range, List.sum_replicate]
  exact nsmul_eq_mul qtd c

theorem get_or_create_person_transactions (s : Store) (doc : String)
    (df : Person) :
    (get_or_create_person s doc df).2.2.transactions = s.transactions := by
  rw [get_or_create_person]
  cases s.persons.find? (fun p => p.documento == doc) <;> rfl

theorem get_or_create_person_installments (s : Store) (doc : String)
    (df : Person) :
    (get_or_create_person s doc df).2.2.installments = s.installments := by
  rw [get_or_create_person]
  cases s.persons.find? (fun p => p.documento == doc) <;> rfl

theorem save_person_transactions (s : Store) (p : Person) :
    (save_person s p).transactions = s.transactions := rfl

theorem save_person_installments (s : Store) (p : Person) :
    (save_person s p).installments = s.installments := rfl

theorem update_tx_embedding_installments (s : Store) (txId : ℕ)
    (eo : Option (List ℚ)) :
    (update_tx_embedding s txId eo).installments = s.installments := by
  cases eo <;> rfl

theorem add_classifications_installments (l : List String) :
    ∀ (st : Store) (acc : List Classification),
    (add_classifications l st acc).2.installments = st.installments := by
  induction l with
  | nil => intro st acc; rfl
  | cons c r ih =>
    intro st acc
    simp only [add_classifications]
    by_cases h : pyStrip c = ""
    · rw [if_pos h]; exact ih st acc
    · rw [if_neg h]
      cases st.classifications.find? (fun k => k.descricao == pyStrip c) with
      | none => rw [ih]
      | some k => exact ih st (acc ++ [k])

/-- C5 (amended): when creation succeeds — complete party data, a fresh
invoice number, `installment_count = N ≥ 1` — the pipeline appends exactly
`N` installments labelled 1/N through N/N, due dates spaced exactly 30
days apart from the given first due date, each fully unpaid with its
remaining balance equal to its stored amount; every stored amount is the
half-away rounding to cents of `A/N`, and the sum of the `N` stored
amounts differs from `A` by at most `N` half-cents (not, in general, by at
most one cent as the claim states — see the counterexample). -/
theorem C5_installment_schedule (render : ℚ → String)
    (embedFn : String → Option (List ℚ)) (today : ℤ) (data : ExtractedData)
    (store : Store) (N : ℕ)
    (hprov : ¬(normalize_document data.fornecedor.cnpj = "" ∨
        safe_strip data.fornecedor.razao_social = ""))
    (hfat : ¬(normalize_document data.faturado.cpf_cnpj = "" ∨
        safe_strip data.faturado.nome_completo = ""))
    (hdup : store.transactions.any
        (fun t => t.numero_nota_fiscal == invoice_number_of data) = false)
    (hq : data.quantidade_parcelas = some N) (hN : 1 ≤ N) :
    (create_service_account render embedFn today data store).1.isOk = true
    ∧ (create_service_account render embedFn today data store).2.installments =
      store.installments ++
        mkInstallments (store.transactions.length + 1) N
          ((parse_date data.data_vencimento).getD today)
          (roundCentsDiv (data.valor_total.getD 0) N)
    ∧ (mkInstallments (store.transactions.length + 1) N
        ((parse_date data.data_vencimento).getD today)
        (roundCentsDiv (data.valor_total.getD 0) N)).length = N
    ∧ (∀ j, j < N →
        (mkInstallments (store.transactions.length + 1) N
          ((parse_date data.data_vencimento).getD today)
          (roundCentsDiv (data.valor_total.getD 0) N))[j]? =
        some
          { account_transaction := store.transactions.length + 1,
            identificacao := Nat.repr (j + 1) ++ "/" ++ Nat.repr N,
            data_vencimento :=
              (parse_date data.data_vencimento).getD today + 30 * (j : ℤ),
            valor_parcela_cents := roundCentsDiv (data.valor_total.getD 0) N,
            valor_pago_cents := 0,
            valor_saldo_cents := roundCentsDiv (data.valor_total.getD 0) N,
            status_parcela := "aberta" })
    ∧ 2 * |(N : ℚ) * ((roundCentsDiv (data.valor_total.getD 0) N : ℤ) : ℚ) -
        100 * (data.valor_total.getD 0)| ≤ (N : ℚ) := by
  have hN0 : ¬(N = 0) := by omega
  refine ⟨?_, ?_, mkInstallments_length _ _ _ _,
    fun j hj => mkInstallments_get _ _ _ _ j hj,
    sum_cents_close (data.valor_total.getD 0) N (by omega)⟩
  · simp only [create_service_account, if_neg hprov, if_neg hfat, hq,
      Option.getD_some, get_or_create_person_transactions,
      save_person_transactions, apply_ite Store.transactions, ite_self,
      hdup, Bool.false_eq_true, if_false, if_neg hN0, CreateResult.isOk]
  · simp only [create_service_account, if_neg hprov, if_neg hfat, hq,
      Option.getD_some, get_or_create_person_transactions,
      get_or_create_person_installments, save_person_transactions,
      save_person_installments, apply_ite Store.transactions,
      apply_ite Store.installments, ite_self, hdup, Bool.false_eq_true,
      if_false, if_neg hN0, update_tx_embedding_installments,
      add_classifications_installments]

/-- C5 counterexample: for a 1.00 total in 7 installments each stored
amount rounds to 0.14, so the stored sum is 0.98 while the stored total is
1.00 — the difference of two cents exceeds one unit of the smallest
currency denomination, refuting the within-one-unit conjunct of the
claim as stated. -/
theorem C5_sum_off_by_two_cents :
    (let data : ExtractedData :=
      { fornecedor := { cnpj := some "11.222.333/0001-81",
                        razao_social := some "ACME LTDA" },
        faturado := { cpf_cnpj := some "123.456.789-01",
                      nome_completo := some "BOB" },
        valor_total := some 1,
        quantidade_parcelas := some 7 }
     let res := create_service_account (fun _ => "") (fun _ => none) 0 data {}
     res.1.isOk = true
     ∧ res.2.installments.length = 7
     ∧ (res.2.installments.map (fun i => i.valor_parcela_cents)).sum = 98
     ∧ roundCents (data.valor_total.getD 0) = 100) := by decide

/-- Witness for C5: a 100-unit invoice in three installments appends the
three-installment schedule to an empty store. -/
theorem C5_installment_schedule_witness :
    (create_service_account (fun _ => "") (fun _ => none) 0 dataW {}).2.installments =
      ([] : List Installment) ++
        mkInstallments 1 3 ((parse_date none).getD 0) (roundCentsDiv 100 3) :=
  (C5_installment_schedule (fun _ => "") (fun _ => none) 0 dataW {} 3
    (by decide) (by decide) (by decide) rfl (by decide)).2.1

end Pratica
